import Mathlib

/-!
Shallow embedding of the Scraper repository (src/app.py and src/scraper.py).

External effects (HTTP fetches, the thread pool, the filesystem) are modelled
as explicit parameters: an Overpass fetch outcome per keyword, a fetch outcome
per website, and a Boolean saying whether the CSV write succeeds.  Pure
computations (row shaping, deduplication, keyword normalisation, the email
regular expression) are translated directly from the Python source.
-/

namespace Scraper

/-- Python lowercasing of one character (the ASCII fragment, which is all the
code relies on). -/
def pyCharLower (c : Char) : Char :=
  if c.isUpper then Char.ofNat (c.toNat + 32) else c

/-- Python str.lower (ASCII fragment). -/
def pyLower (s : String) : String := String.mk (s.toList.map pyCharLower)

/-- The whitespace characters stripped by Python str.strip (ASCII fragment). -/
def pyIsSpace (c : Char) : Bool :=
  c = ' ' || c = '\t' || c = '\n' || c = '\r' || c = '\x0b' || c = '\x0c'

/-- Python str.strip: remove leading and trailing whitespace. -/
def pyStrip (s : String) : String :=
  String.mk (((s.toList.dropWhile pyIsSpace).reverse.dropWhile pyIsSpace).reverse)

/-- Python slice s[:n] (by code points). -/
def pyTake (s : String) (n : Nat) : String := String.mk (s.toList.take n)

/-- Python truthiness chain on strings: the expression a or b, where the empty
string is falsy. -/
def pyOrS (a b : String) : String := if a = "" then b else a

/-- Python expression t.get(key) or d where the tag may be missing (None) or
present but empty; both fall through to the default. -/
def pyOrOptS (o : Option String) (d : String) : String :=
  match o with
  | none => d
  | some s => if s = "" then d else s

/-- Python expression a or b on optional numbers: None and 0 are falsy. -/
def pyOrNum (a b : Option ℚ) : Option ℚ :=
  match a with
  | none => b
  | some q => if q = 0 then b else some q

/-- Python str applied to an optional number: str(None) is the string None. -/
def pyStr (o : Option ℚ) : String :=
  match o with
  | none => "None"
  | some q => toString q

/-- One result row, the dict built in scrape_osm_keyword (src/scraper.py lines
75 to 84).  The keyword field is absent until worker_for_keyword adds it; an
absent key read through get(k, "") yields the empty string, so it is modelled
as a string defaulting to empty.  Coordinates are optional rationals standing
for the JSON numbers. -/
structure Row where
  name : String
  address : String
  category : String
  phone : String
  website : String
  email : String
  lat : Option ℚ
  lng : Option ℚ
  keyword : String := ""
deriving DecidableEq

/-- The dedupe key of src/app.py line 34:
(r.get("name","").strip().lower(), str(r.get("lat")), str(r.get("lng"))). -/
def dedupeKey (r : Row) : String × String × String :=
  (pyLower (pyStrip r.name), pyStr r.lat, pyStr r.lng)

/-- The loop of dedupe_rows (src/app.py lines 30 to 39), with the Python set
of seen keys modelled as a list. -/
def dedupeAux (seen : List (String × String × String)) : List Row → List Row
  | [] => []
  | r :: rs =>
    if dedupeKey r ∈ seen then dedupeAux seen rs
    else r :: dedupeAux (dedupeKey r :: seen) rs

/-- dedupe_rows from src/app.py lines 30 to 39. -/
def dedupe_rows (rows : List Row) : List Row := dedupeAux [] rows


/-! ### scrape_osm_keyword (src/scraper.py lines 28 to 90) -/

/-- The tag dict of one Overpass element, restricted to the keys the code
reads.  A missing key is none; a key present with an empty value is
some empty-string. -/
structure OsmTags where
  name : Option String := none
  addrFull : Option String := none
  addrStreet : Option String := none
  addrHousenumber : Option String := none
  office : Option String := none
  amenity : Option String := none
  shop : Option String := none
  craft : Option String := none
  phone : Option String := none
  contactPhone : Option String := none
  website : Option String := none
  contactWebsite : Option String := none
  email : Option String := none
  contactEmail : Option String := none
deriving DecidableEq

/-- One element of the Overpass JSON response, restricted to the fields the
code reads: tags, lat, lon, and center.lat / center.lon. -/
structure OsmElement where
  tags : OsmTags := {}
  lat : Option ℚ := none
  lon : Option ℚ := none
  centerLat : Option ℚ := none
  centerLon : Option ℚ := none
deriving DecidableEq

/-- The body of the per-element loop of scrape_osm_keyword (src/scraper.py
lines 64 to 85): field extraction with ordered truthy fallbacks.  Every
element yields a row; there is no exclusion branch. -/
def shapeElement (el : OsmElement) : Row :=
  { name := el.tags.name.getD ""
    address := pyOrS (el.tags.addrFull.getD "")
      (pyOrS (el.tags.addrStreet.getD "") (el.tags.addrHousenumber.getD ""))
    category := pyOrOptS el.tags.office (pyOrOptS el.tags.amenity
      (pyOrOptS el.tags.shop (pyOrOptS el.tags.craft "")))
    phone := pyOrOptS el.tags.phone (pyOrOptS el.tags.contactPhone "")
    website := pyOrOptS el.tags.website (pyOrOptS el.tags.contactWebsite "")
    email := pyOrOptS el.tags.email (pyOrOptS el.tags.contactEmail "")
    lat := pyOrNum el.lat el.centerLat
    lng := pyOrNum el.lon el.centerLon }

/-- The result list built by scrape_osm_keyword from the decoded elements
(src/scraper.py lines 55 to 90): early return of the empty list when there
are no elements, otherwise one row per element up to max_results. -/
def scrape_osm_rows (elements : List OsmElement) (maxResults : Nat) :
    List Row :=
  if elements = [] then []
  else (elements.take maxResults).map shapeElement

/-- The outcome of the requests.get call against the Overpass endpoint:
HTTP status, response text, and the decoded elements array of the JSON
body. -/
structure OverpassOutcome where
  status : Nat
  text : String
  elements : List OsmElement
deriving DecidableEq

/-- scrape_osm_keyword (src/scraper.py lines 28 to 90) as a function of the
fetch outcome: a non-200 status raises (modelled as Except.error carrying the
message built on line 53), otherwise the shaped rows are returned. -/
def scrape_osm_keyword (outcome : OverpassOutcome) (maxResults : Nat) :
    Except String (List Row) :=
  if outcome.status ≠ 200 then
    .error ("Overpass returned " ++ toString outcome.status ++ ": " ++
      pyTake outcome.text 200)
  else
    .ok (scrape_osm_rows outcome.elements maxResults)

/-! ### scrape_website_email (src/scraper.py lines 93 to 119)

The regular expression EMAIL_RE from line 93 is
char1+ at char2+ dot alpha-alpha+ where char1 is the class
a-z A-Z 0-9 dot underscore percent plus hyphen and char2 is the class
a-z A-Z 0-9 dot hyphen.  Matching is modelled with the standard
leftmost-greedy backtracking semantics of the re module. -/

/-- Membership in the first character class of EMAIL_RE. -/
def isEmailChar1 (c : Char) : Bool :=
  c.isAlphanum || c = '.' || c = '_' || c = '%' || c = '+' || c = '-'

/-- Membership in the domain character class of EMAIL_RE. -/
def isEmailChar2 (c : Char) : Bool := c.isAlphanum || c = '.' || c = '-'

/-- Length of the maximal run of ASCII letters at the front of the list. -/
def alphaRun (l : List Char) : Nat := (l.takeWhile Char.isAlpha).length

/-- Length of the greedy match of the EMAIL_RE suffix (domain, dot, at least
two letters) at the front of the list, if any: the backtracking engine keeps
the last dot position that still leaves at least two letters. -/
def tailMatchLen (l : List Char) : Option Nat :=
  let cand := (List.range l.length).filter (fun k =>
    1 ≤ k && (l.take k).all isEmailChar2 && l.get? k == some '.' &&
    2 ≤ alphaRun (l.drop (k + 1)))
  match cand.max? with
  | none => none
  | some k => some (k + 1 + alphaRun (l.drop (k + 1)))

/-- Length of the greedy EMAIL_RE match starting at the front of the list, if
any.  The local-part run is necessarily maximal because the at sign is not in
its character class. -/
def matchLenAt (l : List Char) : Option Nat :=
  let a := l.takeWhile isEmailChar1
  if a.length = 0 then none
  else
    match l.drop a.length with
    | '@' :: t =>
      match tailMatchLen t with
      | some n => some (a.length + 1 + n)
      | none => none
    | _ => none

/-- Leftmost non-overlapping scan of re.findall, fuelled by the text length
(every step consumes at least one character). -/
def findallAux : Nat → List Char → List String
  | 0, _ => []
  | _, [] => []
  | fuel + 1, l =>
    match matchLenAt l with
    | some n => String.mk (l.take n) :: findallAux fuel (l.drop n)
    | none => findallAux fuel l.tail

/-- EMAIL_RE.findall over the page text. -/
def findallEmails (s : String) : List String :=
  findallAux s.toList.length s.toList

/-- Python dict.fromkeys based order-preserving dedupe of a string list
(src/scraper.py line 108). -/
def orderedDedupAux (seen : List String) : List String → List String
  | [] => []
  | x :: t =>
    if x ∈ seen then orderedDedupAux seen t
    else x :: orderedDedupAux (x :: seen) t

/-- list(dict.fromkeys(l)). -/
def orderedDedup (l : List String) : List String := orderedDedupAux [] l

/-- Python str.startswith. -/
def pyStartsWith (s p : String) : Bool := p.toList.isPrefixOf s.toList

/-- Worker of Python str.split(sep) for a non-empty separator, fuelled by the
text length. -/
def pySplitAux (sep : List Char) : Nat → List Char → List Char → List (List Char)
  | 0, acc, l => [acc.reverse ++ l]
  | fuel + 1, acc, l =>
    if sep.isPrefixOf l then
      acc.reverse :: pySplitAux sep fuel [] (l.drop sep.length)
    else
      match l with
      | [] => [acc.reverse]
      | c :: t => pySplitAux sep fuel (c :: acc) t

/-- Python str.split(sep) for a non-empty separator. -/
def pySplit (s sep : String) : List String :=
  (pySplitAux sep.toList (s.toList.length + 1) [] s.toList).map String.mk

/-- href.split("mailto:")[1].split("?")[0] from src/scraper.py line 114,
evaluated on anchors that start with the mailto prefix (so index 1 exists). -/
def mailtoTarget (href : String) : String :=
  (pySplit ((pySplit href "mailto:").getD 1 "") "?").getD 0 ""

/-- The outcome of fetching one website: either the requests call (or any
later step inside the try block) raises, or a response with a status, a body,
and the href attributes of its anchor elements in document order (the HTML
parsing itself is the external BeautifulSoup collaborator). -/
inductive FetchOutcome where
  | exn : FetchOutcome
  | resp (status : Nat) (text : String) (anchors : List String) : FetchOutcome

/-- scrape_website_email (src/scraper.py lines 95 to 119) as a function of
the fetch outcome.  The scheme normalisation on lines 97 and 98 only changes
which URL is fetched, which the fetch outcome parameter absorbs. -/
def scrape_website_email (fetch : FetchOutcome) : String :=
  match fetch with
  | .exn => ""
  | .resp status text anchors =>
    if status ≠ 200 then ""
    else
      let emails := findallEmails text
      if emails ≠ [] then (orderedDedup (emails.map pyStrip)).getD 0 ""
      else
        match anchors.find? (fun href => pyStartsWith href "mailto:"
            && (matchLenAt (mailtoTarget href).toList).isSome) with
        | some href => mailtoTarget href
        | none => ""

/-! ### Keyword normalisation in the start handler (src/app.py 135 to 163) -/

/-- The keyword dedupe loop of src/app.py lines 136 to 143: case-insensitive,
order-preserving, keeping the original casing of the first occurrence.  The
Python set of seen lowercased keywords is modelled as a list. -/
def uniqKeywordsAux (seen : List String) : List String → List String
  | [] => []
  | k :: t =>
    if pyLower k ∈ seen then uniqKeywordsAux seen t
    else k :: uniqKeywordsAux (pyLower k :: seen) t

/-- The deduplicated keyword list computed by the start handler. -/
def uniqKeywords (ks : List String) : List String := uniqKeywordsAux [] ks

/-- src/app.py line 146. -/
def max_keywords_allowed : Nat := 500

/-- The effective keyword list of a job: the deduplicated list, truncated to
the first 500 entries (src/app.py lines 145 to 148). -/
def effectiveKeywords (ks : List String) : List String :=
  let uniq := uniqKeywords ks
  if uniq.length > max_keywords_allowed then uniq.take max_keywords_allowed
  else uniq

/-- The start handler (src/app.py lines 135 to 163) from the parsed keyword
list onwards: dedupe, truncate to 500, validate, and create the job whose
total is the length of the effective keyword list.  The Except.error cases
are the two 400 responses. -/
def start (keywords : List String) (city : String) :
    Except String (List String × Nat) :=
  let uniq := effectiveKeywords keywords
  if uniq = [] then .error "no keywords provided"
  else if pyStrip city = "" then .error "city required"
  else .ok (uniq, uniq.length)

/-! ### The job orchestrator: run_job and worker_for_keyword
(src/app.py lines 25 to 107)

The thread pool is modelled by one chosen serialisation: the as_completed
loop handles the keywords in submission order.  Per-keyword final states do
not depend on this order, since each worker touches only its own slot and the
lookup outcome is a function of the keyword.  The Overpass lookup per keyword
and the per-website fetch are oracle parameters; whether the CSV write on
lines 74 to 78 succeeds is a Boolean parameter. -/

/-- src/app.py line 25. -/
def EXECUTOR_WORKERS : Nat := 5

/-- The per-keyword progress record, src/app.py line 45. -/
structure KwStatus where
  count : Nat
  status : String
  last_msg : String
deriving DecidableEq

/-- The in-memory job record of src/app.py lines 16 to 23, with the
per-keyword dict modelled as a partial map. -/
structure JobState where
  status : String
  total : Nat
  completed : Nat
  kwStatuses : String → Option KwStatus
  file : Option String

/-- Mutation of one slot of the per-keyword dict. -/
def updateKw (job : JobState) (k : String) (f : KwStatus → KwStatus) :
    JobState :=
  { job with kwStatuses := fun q =>
      if q = k then (job.kwStatuses q).map f else job.kwStatuses q }

/-- The job state built by src/app.py lines 42 to 45. -/
def initialJob (keywords : List String) : JobState :=
  { status := "running"
    total := keywords.length
    completed := 0
    kwStatuses := fun k =>
      if k ∈ keywords then some { count := 0, status := "queued", last_msg := "" }
      else none
    file := none }

/-- The enrichment pass of src/app.py lines 92 to 100: for each row with a
falsy email and a truthy website, replace the email by the result of
scrape_website_email on the fetch outcome of that website (whose failures
are already absorbed; the surrounding try/except can never fire). -/
def enrichRows (tryEmails : Bool) (webFetch : String → FetchOutcome)
    (rows : List Row) : List Row :=
  if tryEmails then
    rows.map (fun r =>
      if r.email = "" ∧ r.website ≠ "" then
        { r with email := scrape_website_email (webFetch r.website) }
      else r)
  else rows

/-- worker_for_keyword (src/app.py lines 84 to 107): mark the slot running,
run the lookup (whose failure propagates to the caller), enrich, tag each row
with the keyword, record the count and the summary message. -/
def worker_for_keyword (job : JobState) (keyword : String)
    (lookupResult : Except String (List Row)) (tryEmails : Bool)
    (webFetch : String → FetchOutcome) :
    JobState × Except String (List Row) :=
  let job := updateKw job keyword (fun s =>
    { s with status := "running", last_msg := "Querying Overpass..." })
  match lookupResult with
  | .error e => (job, .error e)
  | .ok rows =>
    let rows := enrichRows tryEmails webFetch rows
    let rows := rows.map (fun r => { r with keyword := keyword })
    let job := updateKw job keyword (fun s =>
      { s with count := rows.length,
               last_msg := "Found " ++ toString rows.length })
    (job, .ok rows)

/-- The body of the as_completed loop (src/app.py lines 56 to 68): append the
rows on success, mark the slot done or failed, bump the completed counter. -/
def completeKeyword (job : JobState) (kw : String)
    (res : Except String (List Row)) (acc : List Row) :
    JobState × List Row :=
  match res with
  | .ok rows =>
    let job := updateKw job kw (fun s => { s with status := "done" })
    ({ job with completed := job.completed + 1 }, acc ++ rows)
  | .error e =>
    let job := updateKw job kw (fun s =>
      { s with status := "failed", last_msg := e })
    ({ job with completed := job.completed + 1 }, acc)

/-- One keyword turn: run the worker, then handle its completion. -/
def stepKeyword (lookup : String → Except String (List Row)) (tryEmails : Bool)
    (webFetch : String → FetchOutcome) (p : JobState × List Row)
    (kw : String) : JobState × List Row :=
  let wr := worker_for_keyword p.1 kw (lookup kw) tryEmails webFetch
  completeKeyword wr.1 kw wr.2 p.2

/-- The fan-out and fan-in of src/app.py lines 41 to 68: final job state and
accumulated combined results once every keyword worker has returned. -/
def foldJob (keywords : List String)
    (lookup : String → Except String (List Row)) (tryEmails : Bool)
    (webFetch : String → FetchOutcome) : JobState × List Row :=
  keywords.foldl (stepKeyword lookup tryEmails webFetch)
    (initialJob keywords, [])

/-- The fixed CSV column schema, src/app.py line 73. -/
def csvHeader : List String :=
  ["name", "address", "category", "phone", "email", "website", "lat", "lng",
   "keyword"]

/-- The csv field written for an optional coordinate: the csv module writes
None as the empty string and a number through str. -/
def csvField (o : Option ℚ) : String :=
  match o with
  | none => ""
  | some q => toString q

/-- One data row of the artifact, the dict built on src/app.py line 78 in the
order of the fieldnames. -/
def rowToRecord (r : Row) : List String :=
  [r.name, r.address, r.category, r.phone, r.email, r.website,
   csvField r.lat, csvField r.lng, r.keyword]

/-- run_job (src/app.py lines 41 to 82).  When the CSV write raises, the
exception propagates out of the function: the file and status assignments on
lines 80 and 81 never run, so the job keeps the state it had after the
fan-in (status still running), and no artifact exists. -/
def run_job (jobId : String) (keywords : List String)
    (lookup : String → Except String (List Row)) (tryEmails : Bool)
    (webFetch : String → FetchOutcome) (writeOk : Bool) :
    JobState × Option (List (List String)) :=
  let fr := foldJob keywords lookup tryEmails webFetch
  let deduped := dedupe_rows fr.2
  if writeOk then
    ({ fr.1 with file := some (jobId ++ ".csv"), status := "finished" },
     some (csvHeader :: deduped.map rowToRecord))
  else (fr.1, none)

/-- The header row claimed by the specification (section 6): modelled from
the spec, for comparison with csvHeader. -/
def specHeader : List String :=
  ["name", "address", "category", "phone", "email", "website", "latitude",
   "longitude", "keyword"]

/-! ### Concrete inputs used by witnesses and counterexamples -/

/-- A raw element with every non-category field populated (including a name
on the alleged denylist) and no category-bearing tag, so its shaped category
is empty. -/
def c1Element : OsmElement :=
  { tags := { name := some "City Hospital IT Dept"
              addrFull := some "12 Main Street"
              phone := some "555-1234"
              website := some "example.com"
              email := some "info@example.com" }
    lat := some 10
    lon := some 20 }

/-- Two concrete rows with equal dedupe keys for the claim C3 witness. -/
def r1 : Row :=
  { name := " Acme Software Pvt Ltd ", address := "a1", category := "it",
    phone := "", website := "", email := "", lat := some 1, lng := some 2,
    keyword := "Acme Software" }

/-- The same dedupe key as r1, with different casing and padding. -/
def r2 : Row :=
  { name := "acme software pvt ltd", address := "a2", category := "it",
    phone := "", website := "", email := "", lat := some 1, lng := some 2,
    keyword := "Beta Corp" }


/-- A concrete row with absent coordinates for the claim C6 witness. -/
def r0 : Row :=
  { name := "x", address := "", category := "", phone := "", website := "",
    email := "", lat := none, lng := none }

/-- The Overpass oracle of the claim C5 witness: keyword a succeeds with no
elements, every other keyword gets a 500 response. -/
def oracle0 : String → OverpassOutcome :=
  fun k =>
    if k = "a" then { status := 200, text := "", elements := [] }
    else { status := 500, text := "boom", elements := [] }

/-- A family of 501 pairwise distinct lowercase keywords (distinct lengths). -/
def mkKw (n : Nat) : String := String.mk (List.replicate (n + 1) 'a')

/-- A submission with 501 case-insensitively distinct keywords. -/
def manyKeywords : List String := (List.range 501).map mkKw


/-! ### Lemmas about dedupe_rows -/

theorem dedupeAux_key_not_seen (seen : List (String × String × String))
    (l : List Row) : ∀ r ∈ dedupeAux seen l, dedupeKey r ∉ seen := by
  induction l generalizing seen with
  | nil => intro r hr; simp [dedupeAux] at hr
  | cons h t ih =>
    intro r hr
    by_cases hk : dedupeKey h ∈ seen
    · rw [dedupeAux, if_pos hk] at hr
      exact ih seen r hr
    · rw [dedupeAux, if_neg hk] at hr
      rcases List.mem_cons.mp hr with hr | hr
      · subst hr; exact hk
      · have := ih (dedupeKey h :: seen) r hr
        intro hmem
        exact this (List.mem_cons_of_mem _ hmem)

theorem dedupeAux_pairwise (seen : List (String × String × String))
    (l : List Row) :
    (dedupeAux seen l).Pairwise (fun a b => dedupeKey a ≠ dedupeKey b) := by
  induction l generalizing seen with
  | nil => simp [dedupeAux]
  | cons h t ih =>
    by_cases hk : dedupeKey h ∈ seen
    · rw [dedupeAux, if_pos hk]; exact ih seen
    · rw [dedupeAux, if_neg hk]
      refine List.Pairwise.cons ?_ (ih (dedupeKey h :: seen))
      intro r hr heq
      have := dedupeAux_key_not_seen (dedupeKey h :: seen) t r hr
      exact this (heq ▸ List.mem_cons_self _ _)

theorem dedupeAux_sublist (seen : List (String × String × String))
    (l : List Row) : (dedupeAux seen l).Sublist l := by
  induction l generalizing seen with
  | nil => simp [dedupeAux]
  | cons h t ih =>
    by_cases hk : dedupeKey h ∈ seen
    · rw [dedupeAux, if_pos hk]
      exact (ih seen).cons h
    · rw [dedupeAux, if_neg hk]
      exact (ih (dedupeKey h :: seen)).cons₂ h

theorem dedupeAux_first_occurrence (seen : List (String × String × String))
    (l : List Row) : ∀ r ∈ dedupeAux seen l,
    l.find? (fun x => dedupeKey x == dedupeKey r) = some r := by
  induction l generalizing seen with
  | nil => intro r hr; simp [dedupeAux] at hr
  | cons h t ih =>
    intro r hr
    by_cases hk : dedupeKey h ∈ seen
    · rw [dedupeAux, if_pos hk] at hr
      have hne : dedupeKey h ≠ dedupeKey r := by
        intro heq
        exact dedupeAux_key_not_seen seen t r hr (heq ▸ hk)
      rw [List.find?_cons]
      have : (dedupeKey h == dedupeKey r) = false := by
        simp [hne]
      rw [this]
      exact ih seen r hr
    · rw [dedupeAux, if_neg hk] at hr
      rcases List.mem_cons.mp hr with hr | hr
      · subst hr
        rw [List.find?_cons]
        simp
      · have hne : dedupeKey h ≠ dedupeKey r := by
          intro heq
          exact dedupeAux_key_not_seen (dedupeKey h :: seen) t r hr
            (heq ▸ List.mem_cons_self _ _)
        rw [List.find?_cons]
        have : (dedupeKey h == dedupeKey r) = false := by
          simp [hne]
        rw [this]
        exact ih (dedupeKey h :: seen) r hr

theorem dedupeAux_eq_self (seen : List (String × String × String))
    (l : List Row) (hseen : ∀ r ∈ l, dedupeKey r ∉ seen)
    (hpw : l.Pairwise (fun a b => dedupeKey a ≠ dedupeKey b)) :
    dedupeAux seen l = l := by
  induction l generalizing seen with
  | nil => rfl
  | cons h t ih =>
    rw [dedupeAux, if_neg (hseen h (List.mem_cons_self _ _))]
    congr 1
    apply ih
    · intro r hr hmem
      rcases List.mem_cons.mp hmem with heq | hmem2
      · exact (List.pairwise_cons.mp hpw).1 r hr heq.symm
      · exact hseen r (List.mem_cons_of_mem _ hr) hmem2
    · exact (List.pairwise_cons.mp hpw).2

/-- Claim C3: for every list of rows R, dedupe_rows R contains no two rows
with equal dedupe keys (name lowercased and trimmed, stringified latitude,
stringified longitude), it is a sublist of R (so input order is preserved),
and every kept row is the first row of its key in R. -/
theorem dedupe_rows_spec (R : List Row) :
    (dedupe_rows R).Pairwise (fun a b => dedupeKey a ≠ dedupeKey b) ∧
    (dedupe_rows R).Sublist R ∧
    ∀ r ∈ dedupe_rows R,
      R.find? (fun x => dedupeKey x == dedupeKey r) = some r :=
  ⟨dedupeAux_pairwise [] R, dedupeAux_sublist [] R,
    dedupeAux_first_occurrence [] R⟩

/-- Witness for claim C3 at a concrete pair of rows that share a dedupe key
up to casing and padding of the name. -/
theorem dedupe_rows_spec_witness :
    (dedupe_rows [r1, r2]).Pairwise (fun a b => dedupeKey a ≠ dedupeKey b) ∧
    [r1, r2].find? (fun x => dedupeKey x == dedupeKey r1) = some r1 :=
  ⟨(dedupe_rows_spec [r1, r2]).1,
   (dedupe_rows_spec [r1, r2]).2.2 r1 (by decide)⟩

/-- Claim C4: dedupe_rows is idempotent. -/
theorem dedupe_rows_idempotent (R : List Row) :
    dedupe_rows (dedupe_rows R) = dedupe_rows R :=
  dedupeAux_eq_self [] (dedupe_rows R) (by intro r _ hmem; simp at hmem)
    (dedupeAux_pairwise [] R)

/-! ### Lemmas about uniqKeywords -/

theorem uniqAux_lower_not_seen (seen : List String) (l : List String) :
    ∀ k ∈ uniqKeywordsAux seen l, pyLower k ∉ seen := by
  induction l generalizing seen with
  | nil => intro k hk; simp [uniqKeywordsAux] at hk
  | cons h t ih =>
    intro k hk
    by_cases hm : pyLower h ∈ seen
    · rw [uniqKeywordsAux, if_pos hm] at hk
      exact ih seen k hk
    · rw [uniqKeywordsAux, if_neg hm] at hk
      rcases List.mem_cons.mp hk with hk | hk
      · subst hk; exact hm
      · have := ih (pyLower h :: seen) k hk
        intro hmem
        exact this (List.mem_cons_of_mem _ hmem)

theorem uniqAux_pairwise (seen : List String) (l : List String) :
    (uniqKeywordsAux seen l).Pairwise (fun a b => pyLower a ≠ pyLower b) := by
  induction l generalizing seen with
  | nil => simp [uniqKeywordsAux]
  | cons h t ih =>
    by_cases hm : pyLower h ∈ seen
    · rw [uniqKeywordsAux, if_pos hm]; exact ih seen
    · rw [uniqKeywordsAux, if_neg hm]
      refine List.Pairwise.cons ?_ (ih (pyLower h :: seen))
      intro k hk heq
      have := uniqAux_lower_not_seen (pyLower h :: seen) t k hk
      exact this (heq ▸ List.mem_cons_self _ _)

theorem uniqAux_sublist (seen : List String) (l : List String) :
    (uniqKeywordsAux seen l).Sublist l := by
  induction l generalizing seen with
  | nil => simp [uniqKeywordsAux]
  | cons h t ih =>
    by_cases hm : pyLower h ∈ seen
    · rw [uniqKeywordsAux, if_pos hm]
      exact (ih seen).cons h
    · rw [uniqKeywordsAux, if_neg hm]
      exact (ih (pyLower h :: seen)).cons₂ h

theorem uniqAux_first_occurrence (seen : List String) (l : List String) :
    ∀ k ∈ uniqKeywordsAux seen l,
    l.find? (fun x => pyLower x == pyLower k) = some k := by
  induction l generalizing seen with
  | nil => intro k hk; simp [uniqKeywordsAux] at hk
  | cons h t ih =>
    intro k hk
    by_cases hm : pyLower h ∈ seen
    · rw [uniqKeywordsAux, if_pos hm] at hk
      have hne : pyLower h ≠ pyLower k := by
        intro heq
        exact uniqAux_lower_not_seen seen t k hk (heq ▸ hm)
      rw [List.find?_cons]
      have : (pyLower h == pyLower k) = false := by simp [hne]
      rw [this]
      exact ih seen k hk
    · rw [uniqKeywordsAux, if_neg hm] at hk
      rcases List.mem_cons.mp hk with hk | hk
      · subst hk
        rw [List.find?_cons]
        simp
      · have hne : pyLower h ≠ pyLower k := by
          intro heq
          exact uniqAux_lower_not_seen (pyLower h :: seen) t k hk
            (heq ▸ List.mem_cons_self _ _)
        rw [List.find?_cons]
        have : (pyLower h == pyLower k) = false := by simp [hne]
        rw [this]
        exact ih (pyLower h :: seen) k hk

theorem uniqAux_eq_self (seen : List String) (l : List String)
    (hseen : ∀ k ∈ l, pyLower k ∉ seen)
    (hpw : l.Pairwise (fun a b => pyLower a ≠ pyLower b)) :
    uniqKeywordsAux seen l = l := by
  induction l generalizing seen with
  | nil => rfl
  | cons h t ih =>
    rw [uniqKeywordsAux, if_neg (hseen h (List.mem_cons_self _ _))]
    congr 1
    apply ih
    · intro k hk hmem
      rcases List.mem_cons.mp hmem with heq | hmem2
      · exact (List.pairwise_cons.mp hpw).1 k hk heq.symm
      · exact hseen k (List.mem_cons_of_mem _ hk) hmem2
    · exact (List.pairwise_cons.mp hpw).2

/-! ### Claim C1: no category or denylist filter exists in the code -/

/-- Claim C1 counterexample: scrape_osm_keyword retains a row whose category
is empty and whose name contains Hospital; the claimed exclusion does not
happen at this concrete input. -/
theorem scrape_retains_unfiltered_row :
    (shapeElement c1Element).category = "" ∧
    (shapeElement c1Element).name = "City Hospital IT Dept" ∧
    scrape_osm_keyword { status := 200, text := "", elements := [c1Element] } 50
      = .ok [shapeElement c1Element] :=
  ⟨rfl, rfl, rfl⟩

/-- Claim C1 amended: scrape_osm_keyword applies no retention filter at all:
every raw element up to the max-results cap yields exactly one retained row,
regardless of its category (even empty) and of its name (no denylist). -/
theorem scrape_osm_rows_retains_all (elements : List OsmElement) (cap : Nat) :
    (scrape_osm_rows elements cap).length = (elements.take cap).length ∧
    ∀ el ∈ elements.take cap, shapeElement el ∈ scrape_osm_rows elements cap := by
  by_cases h : elements = []
  · subst h; simp [scrape_osm_rows]
  · unfold scrape_osm_rows
    rw [if_neg h]
    exact ⟨by simp, fun el hel => List.mem_map_of_mem _ hel⟩

/-- Witness for the amended claim C1 at a concrete element. -/
theorem scrape_osm_rows_retains_all_witness :
    (scrape_osm_rows [c1Element] 50).length = ([c1Element].take 50).length ∧
    shapeElement c1Element ∈ scrape_osm_rows [c1Element] 50 :=
  ⟨(scrape_osm_rows_retains_all [c1Element] 50).1,
   (scrape_osm_rows_retains_all [c1Element] 50).2 c1Element (by simp)⟩

/-! ### Claims C7 and C10: keyword normalisation in start -/

/-- Claim C7: the effective keyword list is deduplicated case-insensitively,
preserves the order and the original casing of each first occurrence, the
created job total equals the number of effective keywords, and the concrete
three-keyword example yields the two expected keywords with total 2. -/
theorem start_keywords_spec (ks : List String) (city : String) :
    (effectiveKeywords ks).Pairwise (fun a b => pyLower a ≠ pyLower b) ∧
    (effectiveKeywords ks).Sublist ks ∧
    (∀ k ∈ effectiveKeywords ks,
      ks.find? (fun x => pyLower x == pyLower k) = some k) ∧
    (∀ eff total, start ks city = .ok (eff, total) → total = eff.length) ∧
    uniqKeywords ["Acme Software", "acme software", "Beta Corp"]
      = ["Acme Software", "Beta Corp"] ∧
    start ["Acme Software", "acme software", "Beta Corp"] "Springfield"
      = .ok (["Acme Software", "Beta Corp"], 2) := by
  have hsub : (effectiveKeywords ks).Sublist (uniqKeywords ks) := by
    unfold effectiveKeywords
    by_cases h : (uniqKeywords ks).length > max_keywords_allowed
    · rw [if_pos h]; exact List.take_sublist _ _
    · rw [if_neg h]
  refine ⟨?_, ?_, ?_, ?_, by decide, by rfl⟩
  · exact (uniqAux_pairwise [] ks).sublist hsub
  · exact hsub.trans (uniqAux_sublist [] ks)
  · intro k hk
    exact uniqAux_first_occurrence [] ks k (hsub.subset hk)
  · intro eff total h
    simp only [start] at h
    split at h
    · exact absurd h (by simp)
    · split at h
      · exact absurd h (by simp)
      · rw [Except.ok.injEq, Prod.mk.injEq] at h
        rw [← h.1, ← h.2]

/-- Witness for claim C7 at the concrete three-keyword submission. -/
theorem start_keywords_spec_witness :
    (["Acme Software", "acme software", "Beta Corp"].find?
        (fun x => pyLower x == pyLower "Acme Software") = some "Acme Software") ∧
    ((2 : Nat) = (["Acme Software", "Beta Corp"] : List String).length) :=
  ⟨(start_keywords_spec ["Acme Software", "acme software", "Beta Corp"]
      "Springfield").2.2.1 "Acme Software" (by decide),
   (start_keywords_spec ["Acme Software", "acme software", "Beta Corp"]
      "Springfield").2.2.2.1 ["Acme Software", "Beta Corp"] 2 (by rfl)⟩

/-- Claim C10: a submission whose deduplicated keyword list exceeds 500
entries is silently truncated to the first 500; the job is created (no
error) with total 500. -/
theorem start_truncates (ks : List String) (city : String)
    (h : max_keywords_allowed < (uniqKeywords ks).length)
    (hc : pyStrip city ≠ "") :
    start ks city
      = .ok ((uniqKeywords ks).take max_keywords_allowed,
        max_keywords_allowed) := by
  have heff : effectiveKeywords ks
      = (uniqKeywords ks).take max_keywords_allowed := by
    unfold effectiveKeywords
    rw [if_pos h]
  have hlen : (effectiveKeywords ks).length = max_keywords_allowed := by
    rw [heff, List.length_take]
    omega
  have hne : effectiveKeywords ks ≠ [] := by
    intro h0
    rw [h0] at hlen
    simp [max_keywords_allowed] at hlen
  simp only [start]
  rw [if_neg hne, if_neg hc, hlen, heff]

theorem pyLower_mkKw (n : Nat) : pyLower (mkKw n) = mkKw n := by
  have ha : pyCharLower 'a' = 'a' := by decide
  simp [pyLower, mkKw, String.toList, List.map_replicate, ha]

theorem mkKw_inj {m n : Nat} (h : mkKw m = mkKw n) : m = n := by
  have := congrArg (fun s => s.toList.length) h
  simpa [mkKw, String.toList] using this

theorem manyKeywords_pairwise :
    manyKeywords.Pairwise (fun a b => pyLower a ≠ pyLower b) := by
  unfold manyKeywords
  rw [List.pairwise_map]
  refine (List.pairwise_lt_range 501).imp ?_
  intro a b hlt heq
  rw [pyLower_mkKw, pyLower_mkKw] at heq
  exact absurd (mkKw_inj heq) (Nat.ne_of_lt hlt)

theorem uniqKeywords_manyKeywords :
    uniqKeywords manyKeywords = manyKeywords :=
  uniqAux_eq_self [] manyKeywords (by intro k _ hmem; simp at hmem)
    manyKeywords_pairwise

/-! ### Lemmas about the orchestrator fold -/

theorem enrichRows_length (te : Bool) (wf : String → FetchOutcome)
    (rows : List Row) : (enrichRows te wf rows).length = rows.length := by
  cases te <;> simp [enrichRows]

theorem stepKeyword_slot_ne (lookup : String → Except String (List Row))
    (te : Bool) (wf : String → FetchOutcome) (p : JobState × List Row)
    (k kw : String) (h : kw ≠ k) :
    ((stepKeyword lookup te wf p k).1).kwStatuses kw = p.1.kwStatuses kw := by
  cases hlk : lookup k with
  | error e =>
    simp [stepKeyword, worker_for_keyword, completeKeyword, updateKw, hlk, h]
  | ok rows =>
    simp [stepKeyword, worker_for_keyword, completeKeyword, updateKw, hlk, h]

theorem stepKeyword_slot_isSome (lookup : String → Except String (List Row))
    (te : Bool) (wf : String → FetchOutcome) (p : JobState × List Row)
    (k kw : String) :
    (((stepKeyword lookup te wf p k).1).kwStatuses kw).isSome
      = (p.1.kwStatuses kw).isSome := by
  by_cases h : kw = k
  · subst h
    cases hlk : lookup kw with
    | error e =>
      simp [stepKeyword, worker_for_keyword, completeKeyword, updateKw, hlk]
    | ok rows =>
      simp [stepKeyword, worker_for_keyword, completeKeyword, updateKw, hlk]
  · rw [stepKeyword_slot_ne lookup te wf p k kw h]

theorem stepKeyword_slot_ok (lookup : String → Except String (List Row))
    (te : Bool) (wf : String → FetchOutcome) (p : JobState × List Row)
    (kw : String) (rows : List Row) (hok : lookup kw = .ok rows) :
    ((stepKeyword lookup te wf p kw).1).kwStatuses kw
      = (p.1.kwStatuses kw).map (fun _ =>
          { count := rows.length, status := "done",
            last_msg := "Found " ++ toString rows.length }) := by
  cases hs : p.1.kwStatuses kw with
  | none =>
    simp [stepKeyword, worker_for_keyword, completeKeyword, updateKw, hok, hs]
  | some s =>
    simp [stepKeyword, worker_for_keyword, completeKeyword, updateKw, hok, hs,
      enrichRows_length]

theorem stepKeyword_slot_err (lookup : String → Except String (List Row))
    (te : Bool) (wf : String → FetchOutcome) (p : JobState × List Row)
    (kw : String) (e : String) (herr : lookup kw = .error e) :
    ((stepKeyword lookup te wf p kw).1).kwStatuses kw
      = (p.1.kwStatuses kw).map (fun s =>
          { count := s.count, status := "failed", last_msg := e }) := by
  cases hs : p.1.kwStatuses kw with
  | none =>
    simp [stepKeyword, worker_for_keyword, completeKeyword, updateKw, herr, hs]
  | some s =>
    simp [stepKeyword, worker_for_keyword, completeKeyword, updateKw, herr, hs]

theorem foldl_slot_preserved (lookup : String → Except String (List Row))
    (te : Bool) (wf : String → FetchOutcome) (L : List String) (kw : String)
    (h : kw ∉ L) (p : JobState × List Row) :
    ((L.foldl (stepKeyword lookup te wf) p).1).kwStatuses kw
      = p.1.kwStatuses kw := by
  induction L generalizing p with
  | nil => rfl
  | cons k t ih =>
    rw [List.foldl_cons]
    rw [ih (fun hm => h (List.mem_cons_of_mem _ hm)) _]
    exact stepKeyword_slot_ne lookup te wf p k kw
      (fun he => h (he ▸ List.mem_cons_self _ _))

theorem foldl_slot_done (lookup : String → Except String (List Row))
    (te : Bool) (wf : String → FetchOutcome) (L : List String) (kw : String)
    (rows : List Row) (hok : lookup kw = .ok rows) :
    ∀ p : JobState × List Row, kw ∈ L → (p.1.kwStatuses kw).isSome →
    ((L.foldl (stepKeyword lookup te wf) p).1).kwStatuses kw
      = some { count := rows.length, status := "done",
               last_msg := "Found " ++ toString rows.length } := by
  induction L with
  | nil => intro p hmem _; simp at hmem
  | cons k t ih =>
    intro p hmem hsome
    rw [List.foldl_cons]
    by_cases hkt : kw ∈ t
    · exact ih _ hkt (by rw [stepKeyword_slot_isSome]; exact hsome)
    · have hk : kw = k := by
        rcases List.mem_cons.mp hmem with h | h
        · exact h
        · exact absurd h hkt
      subst hk
      rw [foldl_slot_preserved lookup te wf t kw hkt]
      rw [stepKeyword_slot_ok lookup te wf p kw rows hok]
      cases hs : p.1.kwStatuses kw with
      | none => rw [hs] at hsome; simp at hsome
      | some s => simp

theorem foldl_slot_failed (lookup : String → Except String (List Row))
    (te : Bool) (wf : String → FetchOutcome) (L : List String) (kw : String)
    (e : String) (herr : lookup kw = .error e) :
    ∀ p : JobState × List Row, kw ∈ L → (p.1.kwStatuses kw).isSome →
    ∃ c, ((L.foldl (stepKeyword lookup te wf) p).1).kwStatuses kw
      = some { count := c, status := "failed", last_msg := e } := by
  induction L with
  | nil => intro p hmem _; simp at hmem
  | cons k t ih =>
    intro p hmem hsome
    rw [List.foldl_cons]
    by_cases hkt : kw ∈ t
    · exact ih _ hkt (by rw [stepKeyword_slot_isSome]; exact hsome)
    · have hk : kw = k := by
        rcases List.mem_cons.mp hmem with h | h
        · exact h
        · exact absurd h hkt
      subst hk
      rw [foldl_slot_preserved lookup te wf t kw hkt]
      rw [stepKeyword_slot_err lookup te wf p kw e herr]
      cases hs : p.1.kwStatuses kw with
      | none => rw [hs] at hsome; simp at hsome
      | some s => exact ⟨s.count, by simp⟩

theorem scrape_error_ne_empty (o : OverpassOutcome) (cap : Nat) (e : String)
    (h : scrape_osm_keyword o cap = .error e) : e ≠ "" := by
  unfold scrape_osm_keyword at h
  split at h
  · rw [Except.error.injEq] at h
    subst h
    intro hcon
    have := congrArg String.length hcon
    simp [String.length_append] at this
    exact absurd this.1.1.1 (by decide)
  · exact absurd h (by simp)

/-! ### Claims C2, C5, C6 about run_job -/

/-- Claim C2 (documents the code bug): with a single keyword whose worker has
returned (completed equals total equals 1), a failing CSV write leaves the
job status running forever, with no file and no recorded cause, while a
successful write yields finished with the artifact handle; the failed state
the comments of src/app.py lines 16 to 23 document is unreachable. -/
theorem run_job_write_failure_leaves_running :
    ((run_job "j" ["a"] (fun _ => .ok []) false (fun _ => .exn) false).1).status
      = "running" ∧
    ((run_job "j" ["a"] (fun _ => .ok []) false (fun _ => .exn) false).1).completed
      = 1 ∧
    ((run_job "j" ["a"] (fun _ => .ok []) false (fun _ => .exn) false).1).total
      = 1 ∧
    ((run_job "j" ["a"] (fun _ => .ok []) false (fun _ => .exn) false).1).file
      = none ∧
    (run_job "j" ["a"] (fun _ => .ok []) false (fun _ => .exn) false).2 = none ∧
    ((run_job "j" ["a"] (fun _ => .ok []) false (fun _ => .exn) true).1).status
      = "finished" ∧
    ((run_job "j" ["a"] (fun _ => .ok []) false (fun _ => .exn) true).1).file
      = some "j.csv" :=
  ⟨rfl, rfl, rfl, rfl, rfl, rfl, rfl⟩

/-- Claim C5: for every keyword of a completed job, with the lookup given by
scrape_osm_keyword over an Overpass outcome oracle, the keyword status is
terminal and determined by the lookup outcome: a successful lookup ends done
with the row count (in particular zero rows end done with count 0, not
failed), a lookup that raises ends failed carrying the raised non-empty
message, and keyword failures do not abort the batch: with a succeeding
write the job still reaches finished. -/
theorem run_job_keyword_terminal (oracle : String → OverpassOutcome)
    (cap : Nat) (jobId : String) (keywords : List String) (te : Bool)
    (wf : String → FetchOutcome) (kw : String) (hmem : kw ∈ keywords) :
    (∀ rows, scrape_osm_keyword (oracle kw) cap = .ok rows →
      ((run_job jobId keywords (fun k => scrape_osm_keyword (oracle k) cap)
          te wf true).1).kwStatuses kw
        = some { count := rows.length, status := "done",
                 last_msg := "Found " ++ toString rows.length }) ∧
    (∀ e, scrape_osm_keyword (oracle kw) cap = .error e →
      e ≠ "" ∧
      ∃ c, ((run_job jobId keywords (fun k => scrape_osm_keyword (oracle k) cap)
          te wf true).1).kwStatuses kw
        = some { count := c, status := "failed", last_msg := e }) ∧
    ((run_job jobId keywords (fun k => scrape_osm_keyword (oracle k) cap)
        te wf true).1).status = "finished" := by
  have hrun : (run_job jobId keywords
      (fun k => scrape_osm_keyword (oracle k) cap) te wf true).1
      = { (foldJob keywords (fun k => scrape_osm_keyword (oracle k) cap)
            te wf).1 with
          file := some (jobId ++ ".csv"), status := "finished" } := rfl
  have hinit : ((initialJob keywords).kwStatuses kw).isSome := by
    simp [initialJob, hmem]
  refine ⟨?_, ?_, ?_⟩
  · intro rows hok
    rw [hrun]
    show ((foldJob keywords (fun k => scrape_osm_keyword (oracle k) cap)
      te wf).1).kwStatuses kw = _
    exact foldl_slot_done _ te wf keywords kw rows hok _ hmem hinit
  · intro e herr
    refine ⟨scrape_error_ne_empty (oracle kw) cap e herr, ?_⟩
    rw [hrun]
    show ∃ c, ((foldJob keywords (fun k => scrape_osm_keyword (oracle k) cap)
      te wf).1).kwStatuses kw = _
    exact foldl_slot_failed _ te wf keywords kw e herr _ hmem hinit
  · rw [hrun]

/-- Witness for claim C5 at a two-keyword job with one failing keyword. -/
theorem run_job_keyword_terminal_witness :
    (((run_job "j" ["a", "b"] (fun k => scrape_osm_keyword (oracle0 k) 50)
        false (fun _ => .exn) true).1).kwStatuses "a"
      = some { count := 0, status := "done", last_msg := "Found 0" }) ∧
    ("Overpass returned 500: boom" ≠ "" ∧
      ∃ c, ((run_job "j" ["a", "b"] (fun k => scrape_osm_keyword (oracle0 k) 50)
        false (fun _ => .exn) true).1).kwStatuses "b"
        = some { count := c, status := "failed",
                 last_msg := "Overpass returned 500: boom" }) ∧
    ((run_job "j" ["a", "b"] (fun k => scrape_osm_keyword (oracle0 k) 50)
        false (fun _ => .exn) true).1).status = "finished" :=
  ⟨(run_job_keyword_terminal oracle0 50 "j" ["a", "b"] false (fun _ => .exn)
      "a" (by simp)).1 [] (by rfl),
   (run_job_keyword_terminal oracle0 50 "j" ["a", "b"] false (fun _ => .exn)
      "b" (by simp)).2.1 "Overpass returned 500: boom" (by rfl),
   (run_job_keyword_terminal oracle0 50 "j" ["a", "b"] false (fun _ => .exn)
      "b" (by simp)).2.2⟩

/-- Claim C6 counterexample: at a concrete finished job the artifact header
row is the csv fieldnames using lat and lng, which differs from the
latitude and longitude header the claim states. -/
theorem artifact_header_differs :
    (run_job "j" ["a"] (fun _ => .ok []) false (fun _ => .exn) true).2
      = some [csvHeader] ∧
    csvHeader ≠ specHeader :=
  ⟨rfl, by decide⟩

/-- Claim C6 amended: for every finished job the artifact is the header row
name, address, category, phone, email, website, lat, lng, keyword followed by
exactly one record per deduplicated row, and an absent coordinate is written
as the empty string. -/
theorem run_job_artifact_format (jobId : String) (keywords : List String)
    (lookup : String → Except String (List Row)) (te : Bool)
    (wf : String → FetchOutcome) :
    (run_job jobId keywords lookup te wf true).2
      = some (csvHeader ::
          (dedupe_rows (foldJob keywords lookup te wf).2).map rowToRecord) ∧
    (∀ r : Row, r.lat = none → r.lng = none →
      (rowToRecord r)[6]? = some "" ∧ (rowToRecord r)[7]? = some "") := by
  constructor
  · rfl
  · intro r h1 h2
    simp [rowToRecord, csvField, h1, h2]

/-- Witness for the amended claim C6 at a concrete one-keyword job. -/
theorem run_job_artifact_format_witness :
    ((run_job "j" ["a"] (fun _ => .ok [r0]) false (fun _ => .exn) true).2
      = some (csvHeader ::
          (dedupe_rows (foldJob ["a"] (fun _ => .ok [r0]) false
            (fun _ => .exn)).2).map rowToRecord)) ∧
    ((rowToRecord r0)[6]? = some "" ∧ (rowToRecord r0)[7]? = some "") :=
  ⟨(run_job_artifact_format "j" ["a"] (fun _ => .ok [r0]) false
      (fun _ => .exn)).1,
   (run_job_artifact_format "j" ["a"] (fun _ => .ok [r0]) false
      (fun _ => .exn)).2 r0 rfl rfl⟩

/-! ### Claim C8 about scrape_website_email -/

/-- Claim C8: scrape_website_email is total into String (never raises) and
returns the empty string whenever the fetch raises, whenever the status is
not 200, and whenever a 200 page has no EMAIL_RE token in its text and no
anchor with a valid mailto target. -/
theorem scrape_website_email_spec (status : Nat) (text : String)
    (anchors : List String) :
    (scrape_website_email .exn = "") ∧
    (status ≠ 200 → scrape_website_email (.resp status text anchors) = "") ∧
    (status = 200 → findallEmails text = [] →
      (∀ href ∈ anchors, (pyStartsWith href "mailto:"
        && (matchLenAt (mailtoTarget href).toList).isSome) = false) →
      scrape_website_email (.resp status text anchors) = "") := by
  refine ⟨rfl, ?_, ?_⟩
  · intro h
    simp [scrape_website_email, h]
  · intro h hemails hanchor
    subst h
    have hfind : anchors.find? (fun href => pyStartsWith href "mailto:"
        && (matchLenAt (mailtoTarget href).toList).isSome) = none :=
      List.find?_eq_none.mpr (fun x hx => by rw [hanchor x hx]; simp)
    simp only [String.toList] at hfind
    simp [scrape_website_email, hemails, hfind]

/-- Witness for claim C8: a 404 response and an email-free 200 page with one
invalid mailto anchor both yield the empty string. -/
theorem scrape_website_email_spec_witness :
    (scrape_website_email (.resp 404 "irrelevant" []) = "") ∧
    (scrape_website_email (.resp 200 "hello world"
        ["about.html", "mailto:not-an-email"]) = "") :=
  ⟨(scrape_website_email_spec 404 "irrelevant" []).2.1 (by decide),
   (scrape_website_email_spec 200 "hello world"
      ["about.html", "mailto:not-an-email"]).2.2 rfl (by rfl) (by decide)⟩

/-- Witness for claim C10: the 501-keyword submission is truncated to 500
with no error. -/
theorem start_truncates_witness :
    start manyKeywords "Springfield"
      = .ok ((uniqKeywords manyKeywords).take max_keywords_allowed,
        max_keywords_allowed) :=
  start_truncates manyKeywords "Springfield"
    (by rw [uniqKeywords_manyKeywords]
        simp [manyKeywords, max_keywords_allowed])
    (by decide)

end Scraper
